import Mathlib

/-
Verification of the wallet RPC layer of src/src/wallet/rpcwallet.cpp
(peercoin fork). The definitions below are a shallow embedding of the
functions the claims refer to: SetFeeEstimateMode, ParseRecipients,
SendMoney, the sendtoaddress and sendmany handlers, the RPC-side
FundTransaction wrapper, and the lockunspent handler. Machine integers
(CAmount = int64_t) are modelled as Int; fallible code returns Except.
Collaborators that live outside this file (CWallet methods, amount and
address parsing, fee-mode parsing) are modelled from the spec and marked
as such in their doc comments.
-/

namespace PeercoinWallet

/-- Fee estimation modes; the enumeration named by the spec for
`estimateMode` is {unset, economical, conservative}. -/
inductive FeeEstimateMode
  | unset
  | economical
  | conservative
deriving DecidableEq, Repr

/-- A JSON-RPC error as thrown by JSONRPCError(code, message) in the source. -/
structure RpcError where
  code : Int
  message : String
deriving DecidableEq, Repr

instance exceptDecEq {ε α : Type} [DecidableEq ε] [DecidableEq α] :
    DecidableEq (Except ε α)
  | .ok x, .ok y =>
    if h : x = y then .isTrue (congrArg Except.ok h)
    else .isFalse (fun hc => h (Except.ok.inj hc))
  | .error x, .error y =>
    if h : x = y then .isTrue (congrArg Except.error h)
    else .isFalse (fun hc => h (Except.error.inj hc))
  | .ok _, .error _ => .isFalse (fun hc => Except.noConfusion hc)
  | .error _, .ok _ => .isFalse (fun hc => Except.noConfusion hc)

/-- RPC error code RPC_TYPE_ERROR. -/
def RPC_TYPE_ERROR : Int := -3

/-- RPC error code RPC_WALLET_ERROR. -/
def RPC_WALLET_ERROR : Int := -4

/-- RPC error code RPC_INVALID_ADDRESS_OR_KEY. -/
def RPC_INVALID_ADDRESS_OR_KEY : Int := -5

/-- RPC error code RPC_WALLET_INSUFFICIENT_FUNDS. -/
def RPC_WALLET_INSUFFICIENT_FUNDS : Int := -6

/-- RPC error code RPC_INVALID_PARAMETER. -/
def RPC_INVALID_PARAMETER : Int := -8

/-- RPC error code RPC_WALLET_UNLOCK_NEEDED. -/
def RPC_WALLET_UNLOCK_NEEDED : Int := -13

/-- Modelled from the spec: peercoin-specific RPC error code used by the
"Send amount too small" rejection (the protocol header defining the code
is not part of the sources; only its distinctness matters here). -/
def RPC_INSUFFICIENT_SEND_AMOUNT : Int := -101

/-- Modelled from the spec: MAX_MONEY bound used by amount validation
(value in integer minor units; the consensus header is not in src/). -/
def MAX_MONEY : Int := 2000000000000000

/-- Modelled from the spec: MIN_TXOUT_AMOUNT, the network-defined minimum
transferable unit checked by sendtoaddress (one cent: 10000 minor units). -/
def MIN_TXOUT_AMOUNT : Int := 10000

/-- Modelled from the spec: AmountFromValue parses a user-supplied amount
and rejects values outside the valid money range. The JSON-decimal parsing
itself is out of scope; the argument is the parsed integer value. -/
def AmountFromValue (v : Int) : Except RpcError Int :=
  if v < 0 ∨ MAX_MONEY < v then
    .error ⟨RPC_TYPE_ERROR, "Invalid amount"⟩
  else
    .ok v

/-- Modelled from the spec: DecodeDestination maps an address string to a
destination. Decoding is external (key/base58 machinery is not in src/);
it is modelled as the identity on non-empty strings, so two recipients
share a destination exactly when their address strings are equal. -/
def DecodeDestination (s : String) : Option String :=
  if s = "" then none else some s

/-- Modelled from the spec: FeeModeFromString recognises exactly the
enumeration of the spec: unset, economical, conservative (the source
lowercases its input first; the canonical lowercase spellings are
modelled). -/
def FeeModeFromString (s : String) : Option FeeEstimateMode :=
  if s = "unset" then some .unset
  else if s = "economical" then some .economical
  else if s = "conservative" then some .conservative
  else none

/-- Modelled from the spec: message produced for an unrecognised
estimate_mode value (InvalidEstimateModeErrorMessage in the source). -/
def InvalidEstimateModeErrorMessage : String :=
  "Invalid estimate_mode parameter"

/-- Modelled from the spec: wallet.chain().estimateMaxBlocks(); the doc
comment on SetFeeEstimateMode states targets between 1 and 1008 are valid. -/
def estimateMaxBlocks : Nat := 1008

/-- Modelled from the spec: ParseConfirmTarget validates a confirmation
target, accepting values between 1 and max_target. -/
def ParseConfirmTarget (value : Int) (max_target : Nat) : Except RpcError Nat :=
  if value < 1 ∨ (max_target : Int) < value then
    .error ⟨RPC_INVALID_PARAMETER,
      "Invalid conf_target, must be between 1 and " ++ toString max_target⟩
  else
    .ok value.toNat

/-- Coin control policy envelope (CCoinControl), restricted to the fields
rpcwallet.cpp reads or writes. -/
structure CCoinControl where
  m_feerate : Option Int
  fOverrideFeeRate : Bool
  m_signal_bip125_rbf : Option Bool
  m_fee_mode : FeeEstimateMode
  m_confirm_target : Option Nat
  m_avoid_address_reuse : Bool
  m_avoid_partial_spends : Bool
  m_add_inputs : Bool
  m_include_unsafe_inputs : Bool
  fAllowWatchOnly : Bool
  destChange : Option String
  m_change_type : Option String
deriving DecidableEq, Repr

/-- Default-constructed CCoinControl. -/
def defaultCoinControl : CCoinControl :=
  ⟨none, false, none, .unset, none, false, false, true, false, false, none, none⟩

/-- Message of the conf_target/fee_rate conflict thrown by SetFeeEstimateMode
(rpcwallet.cpp line 212). -/
def msgConflictTargetRate : String :=
  "Cannot specify both conf_target and fee_rate. Please provide either a confirmation target in blocks for automatic fee estimation, or an explicit fee rate."

/-- Message of the estimate_mode/fee_rate conflict thrown by SetFeeEstimateMode
(rpcwallet.cpp line 215). -/
def msgConflictModeRate : String :=
  "Cannot specify both estimate_mode and fee_rate"

/-- Message of the conf_target rejection in the RPC FundTransaction wrapper
(rpcwallet.cpp line 3259). -/
def msgConflictTargetFeeRateFund : String :=
  "Cannot specify both conf_target and feeRate. Please provide either a confirmation target in blocks for automatic fee estimation, or an explicit fee rate."

/-- Message of the estimate_mode rejection in the RPC FundTransaction wrapper
(rpcwallet.cpp line 3262). -/
def msgConflictModeFeeRateFund : String :=
  "Cannot specify both estimate_mode and feeRate"

/-- Recogniser for the conflicting-fee-specification error class of the spec:
any of the four source-level "cannot specify both ..." throws. -/
def IsConflictingFeeSpecification (e : RpcError) : Bool :=
  (e.message = msgConflictTargetRate) ∨ (e.message = msgConflictModeRate)
    ∨ (e.message = msgConflictTargetFeeRateFund) ∨ (e.message = msgConflictModeFeeRateFund)

/-- SetFeeEstimateMode (rpcwallet.cpp lines 208-230): updates a coin control
with fee estimation parameters. Arguments mirror the UniValue parameters:
none models isNull(). Success returns the updated coin control; a thrown
JSONRPCError is the error case, leaving the coin control of the caller unchanged. -/
def SetFeeEstimateMode (cc : CCoinControl) (conf_target : Option Int)
    (estimate_mode : Option String) (fee_rate : Option Int)
    (override_min_fee : Bool) : Except RpcError CCoinControl :=
  match fee_rate with
  | some fr =>
    if conf_target.isSome then
      .error ⟨RPC_INVALID_PARAMETER, msgConflictTargetRate⟩
    else if estimate_mode.isSome ∧ estimate_mode ≠ some "unset" then
      .error ⟨RPC_INVALID_PARAMETER, msgConflictModeRate⟩
    else
      match AmountFromValue fr with
      | .error e => .error e
      | .ok amt =>
        let cc1 := { cc with m_feerate := some amt }
        let cc2 := if override_min_fee then { cc1 with fOverrideFeeRate := true } else cc1
        -- Default RBF to true for explicit fee_rate, if unset.
        if cc2.m_signal_bip125_rbf.isNone then
          .ok { cc2 with m_signal_bip125_rbf := some true }
        else
          .ok cc2
  | none =>
    let step1 : Except RpcError CCoinControl :=
      match estimate_mode with
      | none => .ok cc
      | some em =>
        match FeeModeFromString em with
        | none => .error ⟨RPC_INVALID_PARAMETER, InvalidEstimateModeErrorMessage⟩
        | some m => .ok { cc with m_fee_mode := m }
    match step1 with
    | .error e => .error e
    | .ok cc1 =>
      match conf_target with
      | none => .ok cc1
      | some ct =>
        match ParseConfirmTarget ct estimateMaxBlocks with
        | .error e => .error e
        | .ok t => .ok { cc1 with m_confirm_target := some t }

/-- One requested payment (CRecipient): destination script, amount,
subtract-fee flag. The script is identified by its destination. -/
structure CRecipient where
  scriptPubKey : String
  nAmount : Int
  fSubtractFeeFromAmount : Bool
deriving DecidableEq, Repr

/-- Loop body of ParseRecipients (rpcwallet.cpp lines 376-400), with the
set of destinations seen so far as an explicit accumulator. Each entry is
an (address, amount) pair of the address_amounts object. -/
def parseRecipientsLoop (subtract_fee_outputs : List String) :
    List (String × Int) → List String → Except RpcError (List CRecipient)
  | [], _ => .ok []
  | (address, value) :: rest, destinations =>
    match DecodeDestination address with
    | none =>
      .error ⟨RPC_INVALID_ADDRESS_OR_KEY, "Invalid Bitcoin address: " ++ address⟩
    | some dest =>
      if dest ∈ destinations then
        .error ⟨RPC_INVALID_PARAMETER, "Invalid parameter, duplicated address: " ++ address⟩
      else
        match AmountFromValue value with
        | .error e => .error e
        | .ok amount =>
          let subtract_fee := subtract_fee_outputs.contains address
          match parseRecipientsLoop subtract_fee_outputs rest (dest :: destinations) with
          | .error e => .error e
          | .ok recipients => .ok (⟨dest, amount, subtract_fee⟩ :: recipients)

/-- ParseRecipients (rpcwallet.cpp lines 373-401): validates and normalises
an address-keyed recipient batch against a subtract-fee address list. -/
def ParseRecipients (address_amounts : List (String × Int))
    (subtract_fee_outputs : List String) : Except RpcError (List CRecipient) :=
  parseRecipientsLoop subtract_fee_outputs address_amounts []

/-- Wallet state visible to rpcwallet.cpp. mapWallet maps a transaction id
to its number of outputs; spent and setLockedCoins are outpoint sets.
isLockedWallet models CWallet::IsLocked(), fWalletUnlockMintOnly the global
minting-only unlock flag. createTxOk is modelled from the spec: the outcome
of the external CreateTransaction collaborator (Coin Selector plus
Transaction Builder). committedTxs counts CommitTransaction calls. -/
structure Wallet where
  mapWallet : List (Nat × Nat)
  spent : List (Nat × Nat)
  setLockedCoins : List (Nat × Nat)
  isLockedWallet : Bool
  fWalletUnlockMintOnly : Bool
  disablePrivateKeys : Bool
  avoidReuseFlag : Bool
  createTxOk : Bool
  committedTxs : Nat
deriving DecidableEq, Repr

/-- EnsureWalletIsUnlocked (rpcwallet.cpp lines 125-132). -/
def EnsureWalletIsUnlocked (w : Wallet) : Except RpcError Unit :=
  if w.isLockedWallet then
    .error ⟨RPC_WALLET_UNLOCK_NEEDED,
      "Error: Please enter the wallet passphrase with walletpassphrase first."⟩
  else if w.fWalletUnlockMintOnly then
    .error ⟨RPC_WALLET_UNLOCK_NEEDED, "Error: Wallet unlocked for block minting only."⟩
  else
    .ok ()

/-- GetAvoidReuseFlag (rpcwallet.cpp lines 54-63). -/
def GetAvoidReuseFlag (w : Wallet) (param : Option Bool) : Except RpcError Bool :=
  let can_avoid_reuse := w.avoidReuseFlag
  let avoid_reuse := param.getD can_avoid_reuse
  if avoid_reuse ∧ ¬can_avoid_reuse then
    .error ⟨RPC_WALLET_ERROR, "wallet does not have the avoid reuse feature enabled"⟩
  else
    .ok avoid_reuse

/-- SendMoney (rpcwallet.cpp lines 403-435). The recipient shuffle is a
privacy no-op for these claims; CreateTransaction is the external Coin
Selector / Transaction Builder collaborator, modelled from the spec by the
wallet field createTxOk, and CommitTransaction is modelled by bumping
committedTxs. Errors leave the wallet unchanged. -/
def SendMoney (w : Wallet) (coin_control : CCoinControl)
    (recipients : List CRecipient) : (Except RpcError String) × Wallet :=
  match EnsureWalletIsUnlocked w with
  | .error e => (.error e, w)
  | .ok _ =>
    if w.fWalletUnlockMintOnly then
      (.error ⟨RPC_WALLET_ERROR,
        "Error: Wallet unlocked for block minting only, unable to create transaction."⟩, w)
    else if w.disablePrivateKeys then
      (.error ⟨RPC_WALLET_ERROR, "Error: Private keys are disabled for this wallet"⟩, w)
    else if w.createTxOk then
      (.ok "txid", { w with committedTxs := w.committedTxs + 1 })
    else
      (.error ⟨RPC_WALLET_INSUFFICIENT_FUNDS, "Transaction creation failed"⟩, w)

/-- Core of the sendtoaddress handler (rpcwallet.cpp lines 484-530):
minimum-amount check, coin-control setup, fee-specification resolution,
unlock check, single-recipient batch construction, then SendMoney.
Parameters the handler does not read (comments, verbose) are omitted. -/
def sendtoaddress (w : Wallet) (address : String) (amount : Int)
    (subtractfeefromamount : Option Bool) (conf_target : Option Int)
    (estimate_mode : Option String) (avoid_reuse : Option Bool)
    (fee_rate : Option Int) : (Except RpcError String) × Wallet :=
  if amount < MIN_TXOUT_AMOUNT then
    (.error ⟨RPC_INSUFFICIENT_SEND_AMOUNT, "Send amount too small"⟩, w)
  else
    let fSubtractFeeFromAmount := subtractfeefromamount.getD false
    match GetAvoidReuseFlag w avoid_reuse with
    | .error e => (.error e, w)
    | .ok ar =>
      let cc0 := { defaultCoinControl with
        m_avoid_address_reuse := ar, m_avoid_partial_spends := ar }
      match SetFeeEstimateMode cc0 conf_target estimate_mode fee_rate false with
      | .error e => (.error e, w)
      | .ok cc =>
        match EnsureWalletIsUnlocked w with
        | .error e => (.error e, w)
        | .ok _ =>
          let subtractFeeFromAmount := if fSubtractFeeFromAmount then [address] else []
          match ParseRecipients [(address, amount)] subtractFeeFromAmount with
          | .error e => (.error e, w)
          | .ok recipients => SendMoney w cc recipients

/-- Core of the sendmany handler (rpcwallet.cpp lines 905-936): dummy check,
recipient parsing, then SendMoney with a default coin control. This fork
declares but never reads the replaceable / conf_target / estimate_mode /
fee_rate parameters in the handler body, and performs no per-amount
minimum check. -/
def sendmany (w : Wallet) (dummy : Option String)
    (amounts : List (String × Int)) (subtractfeefrom : Option (List String)) :
    (Except RpcError String) × Wallet :=
  if (match dummy with | some s => decide (s ≠ "") | none => false) = true then
    (.error ⟨RPC_INVALID_PARAMETER, "Dummy value must be set to the empty string"⟩, w)
  else
    let subtractFeeFromAmount := subtractfeefrom.getD []
    match ParseRecipients amounts subtractFeeFromAmount with
    | .error e => (.error e, w)
    | .ok recipients => SendMoney w defaultCoinControl recipients

/-- Draft transaction (CMutableTransaction) as far as the RPC wrapper reads
it: inputs are outpoints, outputs carry their values. -/
structure CMutableTransaction where
  vin : List (Nat × Nat)
  vout : List Int
deriving DecidableEq, Repr

/-- Options object accepted by the RPC FundTransaction wrapper. Option
fields model presence of the corresponding key with a non-null value; the
camelCase aliases of the source (changeAddress, changePosition,
includeWatching, lockUnspents, subtractFeeFromOutputs) branch identically
and are folded into the snake_case field. conf_target_present and
estimate_mode_present record bare key presence, which is all the wrapper
inspects for those keys (a null value still counts as present). -/
structure FundOptions where
  add_inputs : Option Bool
  change_address : Option String
  change_position : Option Int
  change_type : Option String
  include_watching : Option Bool
  lock_unspents : Option Bool
  include_unsafe : Option Bool
  conf_target_present : Bool
  estimate_mode_present : Bool
  subtract_fee_from_outputs : Option (List Int)
deriving DecidableEq, Repr

/-- FundOptions with every key absent. -/
def emptyFundOptions : FundOptions :=
  ⟨none, none, none, none, none, none, none, false, false, none⟩

/-- Modelled from the spec: ParseOutputType recognises the closed set of
address types named in the source help text. -/
def ParseOutputType (s : String) : Option String :=
  if s = "legacy" ∨ s = "p2sh-segwit" ∨ s = "bech32" then some s else none

/-- Modelled from the spec: ParseIncludeWatchonly defaults to false for
wallets with private keys when the parameter is absent. -/
def ParseIncludeWatchonly (p : Option Bool) : Bool :=
  p.getD false

/-- Validated data the RPC FundTransaction wrapper hands to the wallet-side
funding call (coin selection itself is outside rpcwallet.cpp). -/
structure FundResult where
  coinControl : CCoinControl
  change_position : Int
  lockUnspents : Bool
  setSubtractFeeFromOutputs : List Int
deriving DecidableEq, Repr

/-- Loop building setSubtractFeeFromOutputs (rpcwallet.cpp lines 3326-3335),
with the set accumulated so far explicit. Checks run in source order:
duplicate, negative, position too large. -/
def buildSubtractFeeSetLoop (nOut : Nat) :
    List Int → List Int → Except RpcError (List Int)
  | [], acc => .ok acc
  | pos :: rest, acc =>
    if pos ∈ acc then
      .error ⟨RPC_INVALID_PARAMETER, "Invalid parameter, duplicated position: " ++ toString pos⟩
    else if pos < 0 then
      .error ⟨RPC_INVALID_PARAMETER, "Invalid parameter, negative position: " ++ toString pos⟩
    else if (nOut : Int) ≤ pos then
      .error ⟨RPC_INVALID_PARAMETER, "Invalid parameter, position too large: " ++ toString pos⟩
    else
      buildSubtractFeeSetLoop nOut rest (pos :: acc)

/-- Validation of the index-keyed subtract-fee list against the number of
outputs of the draft transaction. -/
def buildSubtractFeeSet (positions : List Int) (nOut : Nat) :
    Except RpcError (List Int) :=
  buildSubtractFeeSetLoop nOut positions []

/-- RPC-side FundTransaction wrapper (rpcwallet.cpp lines 3174-3355),
modelled up to the delegation to the wallet-side funding call: option
processing, the strict key check (the expected-key list of this fork has no
estimate_mode / feeRate / fee_rate entries, so an estimate_mode key is
rejected as unexpected before the dead throw at line 3262), the
unconditional conf_target rejection (lines 3258-3260, kept from the
upstream feeRate branch after this fork removed its guard), the output and
change-position checks and the subtract-fee set construction. The
solving_data block and the chain findCoins preselection add no validation
relevant to these claims and are omitted. The legacy boolean options form
only sets fAllowWatchOnly and is folded into the none case. -/
def FundTransactionRPC (tx : CMutableTransaction)
    (options : Option FundOptions) : Except RpcError FundResult :=
  let afterOptions : CCoinControl → Int → Bool → List Int → Except RpcError FundResult :=
    fun cc change_position lockUnspents subtractFeeFromOutputs =>
      if tx.vout.length = 0 then
        .error ⟨RPC_INVALID_PARAMETER, "TX must have at least one output"⟩
      else if change_position ≠ -1 ∧
          (change_position < 0 ∨ (tx.vout.length : Int) < change_position) then
        .error ⟨RPC_INVALID_PARAMETER, "changePosition out of bounds"⟩
      else
        match buildSubtractFeeSet subtractFeeFromOutputs tx.vout.length with
        | .error e => .error e
        | .ok s => .ok ⟨cc, change_position, lockUnspents, s⟩
  match options with
  | none =>
    let cc := { defaultCoinControl with fAllowWatchOnly := ParseIncludeWatchonly none }
    afterOptions cc (-1) false []
  | some opts =>
    if opts.estimate_mode_present then
      .error ⟨RPC_TYPE_ERROR, "Unexpected key estimate_mode"⟩
    else
      let cc0 := defaultCoinControl
      let cc1 := match opts.add_inputs with
        | some b => { cc0 with m_add_inputs := b }
        | none => cc0
      match (match opts.change_address with
        | none => Except.ok cc1
        | some s =>
          match DecodeDestination s with
          | none => Except.error
              (⟨RPC_INVALID_ADDRESS_OR_KEY, "Change address must be a valid peercoin address"⟩ : RpcError)
          | some dest => Except.ok { cc1 with destChange := some dest }) with
      | .error e => .error e
      | .ok cc2 =>
        let change_position := opts.change_position.getD (-1)
        match (match opts.change_type with
          | none => Except.ok cc2
          | some ct =>
            if opts.change_address.isSome then
              Except.error
                (⟨RPC_INVALID_PARAMETER, "Cannot specify both change address and address type options"⟩ : RpcError)
            else
              match ParseOutputType ct with
              | some parsed => Except.ok { cc2 with m_change_type := some parsed }
              | none => Except.error
                  (⟨RPC_INVALID_ADDRESS_OR_KEY, "Unknown change type " ++ ct⟩ : RpcError)) with
        | .error e => .error e
        | .ok cc3 =>
          let cc4 := { cc3 with fAllowWatchOnly := ParseIncludeWatchonly opts.include_watching }
          let lockUnspents := opts.lock_unspents.getD false
          let cc5 := match opts.include_unsafe with
            | some b => { cc4 with m_include_unsafe_inputs := b }
            | none => cc4
          if opts.conf_target_present then
            .error ⟨RPC_INVALID_PARAMETER, msgConflictTargetFeeRateFund⟩
          else if opts.estimate_mode_present then
            .error ⟨RPC_INVALID_PARAMETER, msgConflictModeFeeRateFund⟩
          else
            let subtractFeeFromOutputs := opts.subtract_fee_from_outputs.getD []
            afterOptions cc5 change_position lockUnspents subtractFeeFromOutputs

/-- Modelled from the spec: Coin Catalog Lock(coinRef) (CWallet::LockCoin);
inserts the outpoint into the locked set, success-only in memory. -/
def LockCoin (w : Wallet) (o : Nat × Nat) : Wallet :=
  if o ∈ w.setLockedCoins then w
  else { w with setLockedCoins := o :: w.setLockedCoins }

/-- Modelled from the spec: Coin Catalog Unlock(coinRef) (CWallet::UnlockCoin);
removes the outpoint from the locked set. -/
def UnlockCoin (w : Wallet) (o : Nat × Nat) : Wallet :=
  { w with setLockedCoins := w.setLockedCoins.erase o }

/-- Modelled from the spec: CWallet::UnlockAllCoins clears the locked set. -/
def UnlockAllCoins (w : Wallet) : Wallet :=
  { w with setLockedCoins := [] }

/-- Validation of one requested outpoint by lockunspent (rpcwallet.cpp
lines 2220-2263): non-negative vout, known wallet transaction, vout index
in range, unspent, and lock-state consistency with the requested operation. -/
def lockunspentValidate (w : Wallet) (fUnlock : Bool) (persistent : Bool)
    (o : Nat × Int) : Except RpcError (Nat × Nat) :=
  if o.2 < 0 then
    .error ⟨RPC_INVALID_PARAMETER, "Invalid parameter, vout cannot be negative"⟩
  else
    let n := o.2.toNat
    match w.mapWallet.lookup o.1 with
    | none => .error ⟨RPC_INVALID_PARAMETER, "Invalid parameter, unknown transaction"⟩
    | some nOut =>
      if nOut ≤ n then
        .error ⟨RPC_INVALID_PARAMETER, "Invalid parameter, vout index out of bounds"⟩
      else if (o.1, n) ∈ w.spent then
        .error ⟨RPC_INVALID_PARAMETER, "Invalid parameter, expected unspent output"⟩
      else
        let is_locked := (o.1, n) ∈ w.setLockedCoins
        if fUnlock ∧ ¬is_locked then
          .error ⟨RPC_INVALID_PARAMETER, "Invalid parameter, expected locked output"⟩
        else if ¬fUnlock ∧ is_locked ∧ ¬persistent then
          .error ⟨RPC_INVALID_PARAMETER, "Invalid parameter, output already locked"⟩
        else
          .ok (o.1, n)

/-- First loop of lockunspent: create and validate all outpoints before any
lock state changes (rpcwallet.cpp lines 2215-2263). -/
def lockunspentValidateAll (w : Wallet) (fUnlock : Bool) (persistent : Bool) :
    List (Nat × Int) → Except RpcError (List (Nat × Nat))
  | [] => .ok []
  | o :: rest =>
    match lockunspentValidate w fUnlock persistent o with
    | .error e => .error e
    | .ok outpt =>
      match lockunspentValidateAll w fUnlock persistent rest with
      | .error e => .error e
      | .ok outs => .ok (outpt :: outs)

/-- Second loop of lockunspent: atomically set (un)locked status for the
validated outputs (rpcwallet.cpp lines 2269-2276). The batch write failure
paths of LockCoin and UnlockCoin are database errors outside this file and
are modelled as always succeeding. -/
def lockunspentApply (w : Wallet) (fUnlock : Bool)
    (outputs : List (Nat × Nat)) : Wallet :=
  outputs.foldl (fun wa o => if fUnlock then UnlockCoin wa o else LockCoin wa o) w

/-- Core of the lockunspent handler (rpcwallet.cpp lines 2186-2279).
none for the transactions parameter models the null case (unlock all). -/
def lockunspent (w : Wallet) (fUnlock : Bool)
    (txns : Option (List (Nat × Int))) (persistent : Bool) :
    (Except RpcError Bool) × Wallet :=
  match txns with
  | none => if fUnlock then (.ok true, UnlockAllCoins w) else (.ok true, w)
  | some output_params =>
    match lockunspentValidateAll w fUnlock persistent output_params with
    | .error e => (.error e, w)
    | .ok outputs => (.ok true, lockunspentApply w fUnlock outputs)

/-- Decidable success test for Except results. -/
def exceptIsOk {ε α : Type} (x : Except ε α) : Bool :=
  match x with
  | .ok _ => true
  | .error _ => false

/-- C5: calling SetFeeEstimateMode with both an explicit fee_rate and a
conf_target fails with the conflicting-fee-specification error, and the
same failure occurs when fee_rate is combined with an estimate_mode other
than "unset"; the thrown error means no coin-control fee field is set. -/
theorem C5_conflicting_fee_specification (cc : CCoinControl)
    (conf_target : Option Int) (estimate_mode : Option String) (fr : Int) (omf : Bool) :
    (conf_target.isSome = true →
      SetFeeEstimateMode cc conf_target estimate_mode (some fr) omf =
        .error ⟨RPC_INVALID_PARAMETER, msgConflictTargetRate⟩) ∧
    (conf_target = none → ∀ m, estimate_mode = some m → m ≠ "unset" →
      SetFeeEstimateMode cc conf_target estimate_mode (some fr) omf =
        .error ⟨RPC_INVALID_PARAMETER, msgConflictModeRate⟩) := by
  constructor
  · intro h
    simp [SetFeeEstimateMode, h]
  · intro h m hm hne
    subst h
    subst hm
    simp [SetFeeEstimateMode, hne]

/-- Witness for C5 at concrete inputs. -/
theorem C5_witness :
    SetFeeEstimateMode defaultCoinControl (some 6) none (some 1000) false =
        .error ⟨RPC_INVALID_PARAMETER, msgConflictTargetRate⟩ ∧
    SetFeeEstimateMode defaultCoinControl none (some "economical") (some 1000) false =
        .error ⟨RPC_INVALID_PARAMETER, msgConflictModeRate⟩ :=
  ⟨(C5_conflicting_fee_specification defaultCoinControl (some 6) none 1000 false).1 rfl,
   (C5_conflicting_fee_specification defaultCoinControl none (some "economical") 1000 false).2
      rfl "economical" rfl (by decide)⟩

/-- C8: SendMoney on a locked wallet, or on a wallet unlocked for block
minting only, fails with a wallet-unlock-needed error and leaves the
wallet unchanged: no transaction is created or committed and no signing
is attempted. -/
theorem C8_locked_wallet_rejects_send (w : Wallet) (cc : CCoinControl)
    (recipients : List CRecipient) :
    (w.isLockedWallet = true →
      SendMoney w cc recipients =
        (.error ⟨RPC_WALLET_UNLOCK_NEEDED,
          "Error: Please enter the wallet passphrase with walletpassphrase first."⟩, w)) ∧
    (w.isLockedWallet = false → w.fWalletUnlockMintOnly = true →
      SendMoney w cc recipients =
        (.error ⟨RPC_WALLET_UNLOCK_NEEDED,
          "Error: Wallet unlocked for block minting only."⟩, w)) := by
  constructor
  · intro h
    simp [SendMoney, EnsureWalletIsUnlocked, h]
  · intro h1 h2
    simp [SendMoney, EnsureWalletIsUnlocked, h1, h2]

/-- Witness for C8 at concrete inputs. -/
theorem C8_witness :
    SendMoney ⟨[], [], [], true, false, false, false, true, 0⟩ defaultCoinControl [] =
        (.error ⟨RPC_WALLET_UNLOCK_NEEDED,
          "Error: Please enter the wallet passphrase with walletpassphrase first."⟩,
         ⟨[], [], [], true, false, false, false, true, 0⟩) ∧
    SendMoney ⟨[], [], [], false, true, false, false, true, 0⟩ defaultCoinControl [] =
        (.error ⟨RPC_WALLET_UNLOCK_NEEDED,
          "Error: Wallet unlocked for block minting only."⟩,
         ⟨[], [], [], false, true, false, false, true, 0⟩) :=
  ⟨(C8_locked_wallet_rejects_send ⟨[], [], [], true, false, false, false, true, 0⟩
      defaultCoinControl []).1 rfl,
   (C8_locked_wallet_rejects_send ⟨[], [], [], false, true, false, false, true, 0⟩
      defaultCoinControl []).2 rfl rfl⟩

/-- C9: when an explicit fee_rate is supplied to SetFeeEstimateMode with no
conflicting target or mode, a coin control with no caller BIP125 preference
comes back with replacement signaling enabled, and a caller-set preference
is never overridden. -/
theorem C9_rbf_default_for_explicit_fee_rate (cc : CCoinControl) (em : Option String)
    (fr : Int) (omf : Bool) (hem : em = none ∨ em = some "unset")
    (h0 : 0 ≤ fr) (h1 : fr ≤ MAX_MONEY) :
    ∃ cc2, SetFeeEstimateMode cc none em (some fr) omf = .ok cc2 ∧
      (cc.m_signal_bip125_rbf = none → cc2.m_signal_bip125_rbf = some true) ∧
      (∀ b, cc.m_signal_bip125_rbf = some b → cc2.m_signal_bip125_rbf = some b) := by
  have hav : AmountFromValue fr = .ok fr := by
    have hx : ¬ (fr < 0 ∨ MAX_MONEY < fr) := by omega
    simp [AmountFromValue, hx]
  rcases hem with h | h <;> subst h <;>
    cases hrbf : cc.m_signal_bip125_rbf <;>
      cases omf <;>
        simp [SetFeeEstimateMode, hav, hrbf]

/-- Witness for C9 at concrete inputs. -/
theorem C9_witness :
    ∃ cc2, SetFeeEstimateMode defaultCoinControl none none (some 1000) false = .ok cc2 ∧
      (defaultCoinControl.m_signal_bip125_rbf = none → cc2.m_signal_bip125_rbf = some true) ∧
      (∀ b, defaultCoinControl.m_signal_bip125_rbf = some b →
        cc2.m_signal_bip125_rbf = some b) :=
  C9_rbf_default_for_explicit_fee_rate defaultCoinControl none 1000 false
    (Or.inl rfl) (by decide) (by decide)

/-- Helper for C4: the ParseRecipients loop fails with a duplicated-address
error whenever the remaining keys repeat an address or clash with one
already recorded in the destination accumulator, for any valid addresses
and in-range amounts. -/
theorem parseRecipientsLoop_duplicate (subtract : List String)
    (entries : List (String × Int)) :
    ∀ acc : List String,
      (∀ p ∈ entries, p.1 ≠ "" ∧ 0 ≤ p.2 ∧ p.2 ≤ MAX_MONEY) →
      (¬ (entries.map Prod.fst).Nodup ∨ ∃ k ∈ entries.map Prod.fst, k ∈ acc) →
      ∃ a, parseRecipientsLoop subtract entries acc =
        .error ⟨RPC_INVALID_PARAMETER, "Invalid parameter, duplicated address: " ++ a⟩ := by
  induction entries with
  | nil =>
    intro acc _ hd
    rcases hd with h | ⟨k, hk, _⟩
    · exact absurd List.nodup_nil h
    · simp at hk
  | cons p rest ih =>
    intro acc hv hd
    obtain ⟨addr, v⟩ := p
    have hp0 := hv (addr, v) (List.mem_cons_self _ _)
    have hdec : DecodeDestination addr = some addr := by
      simp [DecodeDestination, hp0.1]
    by_cases hmem : addr ∈ acc
    · exact ⟨addr, by simp [parseRecipientsLoop, hdec, hmem]⟩
    · have hav : AmountFromValue v = .ok v := by
        have hx : ¬ (v < 0 ∨ MAX_MONEY < v) := by omega
        simp [AmountFromValue, hx]
      have hd' : ¬ (rest.map Prod.fst).Nodup ∨
          ∃ k ∈ rest.map Prod.fst, k ∈ addr :: acc := by
        rcases hd with h | ⟨k, hk, hka⟩
        · rw [List.map_cons, List.nodup_cons] at h
          by_cases hrep : addr ∈ rest.map Prod.fst
          · exact Or.inr ⟨addr, hrep, List.mem_cons_self _ _⟩
          · exact Or.inl (fun hnd => h ⟨hrep, hnd⟩)
        · rw [List.map_cons, List.mem_cons] at hk
          rcases hk with rfl | hk
          · exact absurd hka hmem
          · exact Or.inr ⟨k, hk, List.mem_cons_of_mem _ hka⟩
      obtain ⟨a, ha⟩ := ih (addr :: acc)
        (fun q hq => hv q (List.mem_cons_of_mem _ hq)) hd'
      exact ⟨a, by simp [parseRecipientsLoop, hdec, hmem, hav, ha]⟩

/-- C4: a recipient batch containing two entries with the same destination
address fails recipient validation with a duplicated-address error,
whatever the (in-range) amounts attached to the entries, and produces no
recipient list. -/
theorem C4_duplicate_destination_rejected (entries : List (String × Int))
    (subtract : List String)
    (hv : ∀ p ∈ entries, p.1 ≠ "" ∧ 0 ≤ p.2 ∧ p.2 ≤ MAX_MONEY)
    (hd : ¬ (entries.map Prod.fst).Nodup) :
    ∃ a, ParseRecipients entries subtract =
      .error ⟨RPC_INVALID_PARAMETER, "Invalid parameter, duplicated address: " ++ a⟩ :=
  parseRecipientsLoop_duplicate subtract entries [] hv (Or.inl hd)

/-- Witness for C4 at a concrete two-entry batch with equal addresses and
different amounts. -/
theorem C4_witness :
    ∃ a, ParseRecipients [("addr", 100), ("addr", 200)] [] =
      .error ⟨RPC_INVALID_PARAMETER, "Invalid parameter, duplicated address: " ++ a⟩ :=
  C4_duplicate_destination_rejected [("addr", 100), ("addr", 200)] []
    (by decide) (by decide)

/-- Helper for C10: if some requested outpoint fails validation, the
validate-all pass of lockunspent returns an error. -/
theorem lockunspentValidateAll_error (w : Wallet) (fUnlock persistent : Bool)
    (outs : List (Nat × Int))
    (h : ∃ o ∈ outs, exceptIsOk (lockunspentValidate w fUnlock persistent o) = false) :
    ∃ e, lockunspentValidateAll w fUnlock persistent outs = .error e := by
  induction outs with
  | nil => simp at h
  | cons q rest ih =>
    rcases h with ⟨o1, ho1, hbad⟩
    cases hval : lockunspentValidate w fUnlock persistent q with
    | error e => exact ⟨e, by simp [lockunspentValidateAll, hval]⟩
    | ok r =>
      rcases List.mem_cons.mp ho1 with rfl | hmem
      · rw [hval] at hbad
        simp [exceptIsOk] at hbad
      · obtain ⟨e, he⟩ := ih ⟨o1, hmem, hbad⟩
        exact ⟨e, by simp [lockunspentValidateAll, hval, he]⟩

/-- C10: lockunspent validates every requested outpoint before changing any
lock state, so when any outpoint in the request fails validation the call
errors and the wallet, its locked-coin set included, is left unchanged. -/
theorem C10_failed_validation_leaves_locks_unchanged (w : Wallet)
    (fUnlock persistent : Bool) (outs : List (Nat × Int))
    (h : ∃ o ∈ outs, exceptIsOk (lockunspentValidate w fUnlock persistent o) = false) :
    ∃ e, lockunspent w fUnlock (some outs) persistent = (.error e, w) := by
  obtain ⟨e, he⟩ := lockunspentValidateAll_error w fUnlock persistent outs h
  exact ⟨e, by simp [lockunspent, he]⟩

/-- Witness for C10: a request naming an unknown transaction errors and
leaves the (empty) wallet untouched. -/
theorem C10_witness :
    ∃ e, lockunspent ⟨[], [], [], false, false, false, false, true, 0⟩ false
      (some [(5, 0)]) false =
        (.error e, ⟨[], [], [], false, false, false, false, true, 0⟩) :=
  C10_failed_validation_leaves_locks_unchanged
    ⟨[], [], [], false, false, false, false, true, 0⟩ false false [(5, 0)]
    ⟨(5, 0), by decide, by decide⟩

/-- Draft transaction with a single output, used as a concrete input. -/
def txOne : CMutableTransaction := ⟨[], [100000]⟩

/-- Funding options whose only content is a conf_target key. -/
def optsConfTarget : FundOptions := { emptyFundOptions with conf_target_present := true }

/-- C1 counterexample: a funding request carrying a conf_target and no
explicit fee rate anywhere (the funding options of this fork have no fee-rate
key at all) still fails, and the error is of the
conflicting-fee-specification class, contradicting the claim that this
error is raised only when both a rate and a target are supplied. -/
theorem C1_counterexample :
    FundTransactionRPC txOne (some optsConfTarget) =
      .error ⟨RPC_INVALID_PARAMETER, msgConflictTargetFeeRateFund⟩ ∧
    IsConflictingFeeSpecification
      ⟨RPC_INVALID_PARAMETER, msgConflictTargetFeeRateFund⟩ = true := by
  constructor
  · decide
  · decide

/-- Helper for C1: the only error ParseConfirmTarget produces is the
out-of-range conf_target message. -/
theorem ParseConfirmTarget_error_msg (v : Int) (m : Nat) (e : RpcError)
    (h : ParseConfirmTarget v m = .error e) :
    e = ⟨RPC_INVALID_PARAMETER,
      "Invalid conf_target, must be between 1 and " ++ toString m⟩ := by
  unfold ParseConfirmTarget at h
  split at h
  · exact (Except.error.inj h).symm
  · exact Except.noConfusion h

/-- C1 amended: in SetFeeEstimateMode a conf_target without an explicit
fee_rate never produces the conflicting-fee-specification error (the
target is recorded or the wallet default applies); but the RPC
FundTransaction wrapper raises that error for any options containing a
conf_target key, even though no fee rate can be supplied there. -/
theorem C1_amended_conf_target_handling :
    (∀ (cc : CCoinControl) (ct : Option Int) (em : Option String) (omf : Bool)
       (e : RpcError),
      SetFeeEstimateMode cc ct em none omf = .error e →
      IsConflictingFeeSpecification e = false) ∧
    (∀ (tx : CMutableTransaction) (opts : FundOptions),
      opts.estimate_mode_present = false → opts.change_address = none →
      opts.change_type = none → opts.conf_target_present = true →
      FundTransactionRPC tx (some opts) =
        .error ⟨RPC_INVALID_PARAMETER, msgConflictTargetFeeRateFund⟩) := by
  constructor
  · intro cc ct em omf e h
    rcases em with _ | ems
    · rcases ct with _ | ctv
      · simp [SetFeeEstimateMode] at h
      · simp only [SetFeeEstimateMode] at h
        rcases hp : ParseConfirmTarget ctv estimateMaxBlocks with e1 | t
        · rw [hp] at h
          simp at h
          subst h
          obtain rfl := ParseConfirmTarget_error_msg ctv estimateMaxBlocks e1 hp
          decide
        · rw [hp] at h
          simp at h
    · rcases hfm : FeeModeFromString ems with _ | m
      · rcases ct with _ | ctv
        · simp only [SetFeeEstimateMode] at h
          rw [hfm] at h
          simp at h
          subst h
          decide
        · simp only [SetFeeEstimateMode] at h
          rw [hfm] at h
          simp at h
          subst h
          decide
      · rcases ct with _ | ctv
        · simp only [SetFeeEstimateMode] at h
          rw [hfm] at h
          simp at h
        · simp only [SetFeeEstimateMode] at h
          rw [hfm] at h
          rcases hp : ParseConfirmTarget ctv estimateMaxBlocks with e1 | t
          · rw [hp] at h
            simp at h
            subst h
            obtain rfl := ParseConfirmTarget_error_msg ctv estimateMaxBlocks e1 hp
            decide
          · rw [hp] at h
            simp at h
  · intro tx opts hem hca hct hconf
    simp [FundTransactionRPC, hem, hca, hct, hconf]

/-- Witness for C1 amended: a rejected estimate mode with no fee rate is not
a conflicting-fee-specification error, and concrete options with only a
conf_target key are rejected with the conflict error. -/
theorem C1_witness :
    IsConflictingFeeSpecification
      ⟨RPC_INVALID_PARAMETER, InvalidEstimateModeErrorMessage⟩ = false ∧
    FundTransactionRPC txOne (some optsConfTarget) =
      .error ⟨RPC_INVALID_PARAMETER, msgConflictTargetFeeRateFund⟩ :=
  ⟨C1_amended_conf_target_handling.1 defaultCoinControl none (some "bogus") false
      ⟨RPC_INVALID_PARAMETER, InvalidEstimateModeErrorMessage⟩ (by decide),
   C1_amended_conf_target_handling.2 txOne optsConfTarget rfl rfl rfl rfl⟩

/-- Funding options whose only content is an explicit change position of -1. -/
def optsNegOnePos : FundOptions := { emptyFundOptions with change_position := some (-1) }

/-- C7 counterexample: a caller-specified change position of -1 lies outside
[0, outputCount] yet is accepted by the funding wrapper (it is treated as
the automatic choice), contradicting the claim that any explicit value
outside the range fails with the out-of-bounds error. -/
theorem C7_counterexample :
    ¬ (0 ≤ (-1 : Int) ∧ (-1 : Int) ≤ (txOne.vout.length : Int)) ∧
    FundTransactionRPC txOne (some optsNegOnePos) =
      .ok ⟨defaultCoinControl, -1, false, []⟩ := by
  constructor
  · decide
  · decide

/-- C7 amended: an explicit change position is accepted exactly when it lies
within [0, outputCount] or equals -1, which is treated as the automatic
choice; any other explicit value fails with the out-of-bounds error; when
no position is given the automatic sentinel -1 is used. -/
theorem C7_amended_change_position (tx : CMutableTransaction) (opts : FundOptions)
    (hvout : tx.vout.length ≠ 0)
    (hem : opts.estimate_mode_present = false) (hca : opts.change_address = none)
    (hct : opts.change_type = none) (hconf : opts.conf_target_present = false)
    (hsub : opts.subtract_fee_from_outputs = none) :
    (∀ v, opts.change_position = some v →
      ((v ≠ -1 ∧ (v < 0 ∨ (tx.vout.length : Int) < v) →
        FundTransactionRPC tx (some opts) =
          .error ⟨RPC_INVALID_PARAMETER, "changePosition out of bounds"⟩) ∧
       (v = -1 ∨ (0 ≤ v ∧ v ≤ (tx.vout.length : Int)) →
        (FundTransactionRPC tx (some opts)).map FundResult.change_position = .ok v))) ∧
    (opts.change_position = none →
      (FundTransactionRPC tx (some opts)).map FundResult.change_position = .ok (-1)) := by
  constructor
  · intro v hv
    constructor
    · intro hbad
      simp [FundTransactionRPC, hem, hca, hct, hconf, hsub, hv, hvout,
        buildSubtractFeeSet, buildSubtractFeeSetLoop, hbad]
    · intro hgood
      have hok : ¬ (v ≠ -1 ∧ (v < 0 ∨ (tx.vout.length : Int) < v)) := by
        rcases hgood with h | h <;> omega
      simp [FundTransactionRPC, hem, hca, hct, hconf, hsub, hv, hvout,
        buildSubtractFeeSet, buildSubtractFeeSetLoop, hok, Except.map]
  · intro hnone
    simp [FundTransactionRPC, hem, hca, hct, hconf, hsub, hnone, hvout,
      buildSubtractFeeSet, buildSubtractFeeSetLoop, Except.map]

/-- Witness for C7 amended at concrete inputs: position 5 on a one-output
transaction errors, position 1 is accepted, absent position yields -1. -/
theorem C7_witness :
    FundTransactionRPC txOne
      (some { emptyFundOptions with change_position := some 5 }) =
        .error ⟨RPC_INVALID_PARAMETER, "changePosition out of bounds"⟩ ∧
    (FundTransactionRPC txOne
      (some { emptyFundOptions with change_position := some 1 })).map
        FundResult.change_position = .ok 1 ∧
    (FundTransactionRPC txOne (some emptyFundOptions)).map
        FundResult.change_position = .ok (-1) :=
  ⟨((C7_amended_change_position txOne
      { emptyFundOptions with change_position := some 5 }
      (by decide) rfl rfl rfl rfl rfl).1 5 rfl).1 (by decide),
   ((C7_amended_change_position txOne
      { emptyFundOptions with change_position := some 1 }
      (by decide) rfl rfl rfl rfl rfl).1 1 rfl).2 (by decide),
   (C7_amended_change_position txOne emptyFundOptions
      (by decide) rfl rfl rfl rfl rfl).2 rfl⟩

/-- Wallet with one known transaction of two outputs whose first output is
in the locked-coin set. -/
def wCoin : Wallet := ⟨[(1, 2)], [], [(1, 0)], false, false, false, false, true, 0⟩

/-- C3 counterexample: a lock request (persistent=false, the default) for a
coin already in the locked set is not a successful no-op: it fails with
the output-already-locked error, contradicting the claim. -/
theorem C3_counterexample :
    ((1, 0) ∈ wCoin.setLockedCoins) ∧
    lockunspent wCoin false (some [((1 : Nat), (0 : Int))]) false =
      (.error ⟨RPC_INVALID_PARAMETER, "Invalid parameter, output already locked"⟩,
        wCoin) := by
  constructor
  · decide
  · decide

/-- C3 amended: for a validated outpoint, locking an already-locked coin
succeeds as a no-op only when persistent=true; with persistent=false it
fails with the output-already-locked error and changes nothing; and
unlocking a coin not in the locked set fails with the expected-locked-output
error and changes no lock state. -/
theorem C3_amended_lock_state_transitions (w : Wallet) (t n k : Nat)
    (hmap : w.mapWallet.lookup t = some k) (hn : n < k)
    (hunspent : (t, n) ∉ w.spent) :
    (((t, n) ∈ w.setLockedCoins) →
      lockunspent w false (some [(t, (n : Int))]) true = (.ok true, w)) ∧
    (((t, n) ∈ w.setLockedCoins) →
      lockunspent w false (some [(t, (n : Int))]) false =
        (.error ⟨RPC_INVALID_PARAMETER, "Invalid parameter, output already locked"⟩, w)) ∧
    (((t, n) ∉ w.setLockedCoins) → ∀ p : Bool,
      lockunspent w true (some [(t, (n : Int))]) p =
        (.error ⟨RPC_INVALID_PARAMETER, "Invalid parameter, expected locked output"⟩, w)) := by
  have hnneg : ¬ ((n : Int) < 0) := by omega
  have htn : ((n : Int)).toNat = n := Int.toNat_natCast n
  have hkn : ¬ (k ≤ n) := Nat.not_le.mpr hn
  refine ⟨?_, ?_, ?_⟩
  · intro hlock
    simp [lockunspent, lockunspentValidateAll, lockunspentValidate, lockunspentApply,
      LockCoin, hnneg, htn, hmap, hkn, hunspent, hlock]
  · intro hlock
    simp [lockunspent, lockunspentValidateAll, lockunspentValidate,
      hnneg, htn, hmap, hkn, hunspent, hlock]
  · intro hlock p
    simp [lockunspent, lockunspentValidateAll, lockunspentValidate,
      hnneg, htn, hmap, hkn, hunspent, hlock]

/-- Witness for C3 amended at wCoin: persistent re-lock of the locked coin
succeeds unchanged, and unlocking the unlocked second output errors. -/
theorem C3_witness :
    lockunspent wCoin false (some [((1 : Nat), (0 : Int))]) true = (.ok true, wCoin) ∧
    lockunspent wCoin true (some [((1 : Nat), (1 : Int))]) false =
      (.error ⟨RPC_INVALID_PARAMETER, "Invalid parameter, expected locked output"⟩,
        wCoin) :=
  ⟨(C3_amended_lock_state_transitions wCoin 1 0 2 rfl (by decide) (by decide)).1
      (by decide),
   ((C3_amended_lock_state_transitions wCoin 1 1 2 rfl (by decide) (by decide)).2.2
      (by decide)) false⟩

/-- C2 counterexample: an address-keyed batch whose subtract-fee list names
an address that is not among the recipients is not rejected: parsing
succeeds and simply leaves the flag unset, contradicting the claimed
invalid-subtract-fee-target rejection. -/
theorem C2_counterexample :
    (("b" : String) ≠ "a") ∧
    ParseRecipients [("a", 10000)] ["b"] = .ok [⟨"a", 10000, false⟩] := by
  constructor
  · decide
  · decide

/-- Helper for C2: the subtract-fee-set loop of FundTransaction errors
whenever the remaining positions contain a negative or too-large index,
repeat each other, or clash with the accumulated set. -/
theorem buildSubtractFeeSetLoop_error (nOut : Nat) (positions : List Int) :
    ∀ acc : List Int,
      ((∃ p ∈ positions, p < 0 ∨ (nOut : Int) ≤ p) ∨ ¬ positions.Nodup ∨
        ∃ p ∈ positions, p ∈ acc) →
      ∃ e, buildSubtractFeeSetLoop nOut positions acc = .error e := by
  induction positions with
  | nil =>
    intro acc h
    rcases h with ⟨p, hp, _⟩ | h | ⟨p, hp, _⟩
    · simp at hp
    · exact absurd List.nodup_nil h
    · simp at hp
  | cons q rest ih =>
    intro acc h
    by_cases hqa : q ∈ acc
    · exact ⟨⟨RPC_INVALID_PARAMETER, "Invalid parameter, duplicated position: " ++ toString q⟩,
        by simp [buildSubtractFeeSetLoop, hqa]⟩
    · by_cases hq0 : q < 0
      · exact ⟨⟨RPC_INVALID_PARAMETER, "Invalid parameter, negative position: " ++ toString q⟩,
          by simp [buildSubtractFeeSetLoop, hqa, hq0]⟩
      · by_cases hqn : (nOut : Int) ≤ q
        · exact ⟨⟨RPC_INVALID_PARAMETER, "Invalid parameter, position too large: " ++ toString q⟩,
            by simp [buildSubtractFeeSetLoop, hqa, hq0, hqn]⟩
        · have h' : (∃ p ∈ rest, p < 0 ∨ (nOut : Int) ≤ p) ∨ ¬ rest.Nodup ∨
              ∃ p ∈ rest, p ∈ q :: acc := by
            rcases h with ⟨p, hp, hbad⟩ | hnd | ⟨p, hp, hpa⟩
            · rcases List.mem_cons.mp hp with rfl | hp
              · exact absurd hbad (by omega)
              · exact Or.inl ⟨p, hp, hbad⟩
            · rw [List.nodup_cons] at hnd
              by_cases hqr : q ∈ rest
              · exact Or.inr (Or.inr ⟨q, hqr, List.mem_cons_self _ _⟩)
              · exact Or.inr (Or.inl (fun hh => hnd ⟨hqr, hh⟩))
            · rcases List.mem_cons.mp hp with rfl | hp
              · exact absurd hpa hqa
              · exact Or.inr (Or.inr ⟨p, hp, List.mem_cons_of_mem _ hpa⟩)
          obtain ⟨e, he⟩ := ih (q :: acc) h'
          exact ⟨e, by simp [buildSubtractFeeSetLoop, hqa, hq0, hqn, he]⟩

/-- Helper for C2: the ParseRecipients loop succeeds on any batch of valid
addresses with in-range amounts and distinct keys not clashing with the
accumulator, whatever the subtract-fee list contains, and flags exactly
the recipients whose address is listed there. -/
theorem parseRecipientsLoop_ok (subtract : List String)
    (entries : List (String × Int)) :
    ∀ acc : List String,
      (∀ p ∈ entries, p.1 ≠ "" ∧ 0 ≤ p.2 ∧ p.2 ≤ MAX_MONEY) →
      (entries.map Prod.fst).Nodup →
      (∀ k ∈ entries.map Prod.fst, k ∉ acc) →
      ∃ l, parseRecipientsLoop subtract entries acc = .ok l ∧
        ∀ r ∈ l, r.fSubtractFeeFromAmount = subtract.contains r.scriptPubKey := by
  induction entries with
  | nil =>
    intro acc _ _ _
    exact ⟨[], by simp [parseRecipientsLoop]⟩
  | cons p rest ih =>
    intro acc hv hnd hdisj
    obtain ⟨addr, v⟩ := p
    have hp0 := hv (addr, v) (List.mem_cons_self _ _)
    have hdec : DecodeDestination addr = some addr := by
      simp [DecodeDestination, hp0.1]
    have hmem : addr ∉ acc := hdisj addr (by simp)
    have hav : AmountFromValue v = .ok v := by
      have hx : ¬ (v < 0 ∨ MAX_MONEY < v) := by omega
      simp [AmountFromValue, hx]
    rw [List.map_cons, List.nodup_cons] at hnd
    have hdisj' : ∀ k ∈ rest.map Prod.fst, k ∉ addr :: acc := by
      intro k hk
      rw [List.mem_cons]
      rintro (rfl | hka)
      · exact hnd.1 hk
      · exact hdisj k (by simp [hk]) hka
    obtain ⟨l, hl, hflag⟩ := ih (addr :: acc)
      (fun q hq => hv q (List.mem_cons_of_mem _ hq)) hnd.2 hdisj'
    refine ⟨⟨addr, v, subtract.contains addr⟩ :: l, ?_, ?_⟩
    · simp [parseRecipientsLoop, hdec, hmem, hav, hl]
    · intro r hr
      rcases List.mem_cons.mp hr with rfl | hr
      · rfl
      · exact hflag r hr

/-- C2 amended: for index-keyed batches the funding wrapper rejects a
subtract-fee index that is negative, duplicated, or not smaller than the
output count; for address-keyed batches a subtract-fee address that
references no recipient is not rejected: validation succeeds and the flag
is set exactly on the recipients whose address appears in the list. -/
theorem C2_amended_subtract_fee_referencing :
    (∀ (positions : List Int) (nOut : Nat),
      ((∃ p ∈ positions, p < 0 ∨ (nOut : Int) ≤ p) ∨ ¬ positions.Nodup) →
      ∃ e, buildSubtractFeeSet positions nOut = .error e) ∧
    (∀ (entries : List (String × Int)) (subtract : List String),
      (∀ p ∈ entries, p.1 ≠ "" ∧ 0 ≤ p.2 ∧ p.2 ≤ MAX_MONEY) →
      (entries.map Prod.fst).Nodup →
      ∃ l, ParseRecipients entries subtract = .ok l ∧
        ∀ r ∈ l, r.fSubtractFeeFromAmount = subtract.contains r.scriptPubKey) := by
  constructor
  · intro positions nOut h
    exact buildSubtractFeeSetLoop_error nOut positions []
      (by rcases h with h | h
          · exact Or.inl h
          · exact Or.inr (Or.inl h))
  · intro entries subtract hv hnd
    exact parseRecipientsLoop_ok subtract entries [] hv hnd (by simp)

/-- Witness for C2 amended: a duplicated index errors; a foreign subtract
address on a valid one-recipient batch is accepted with the flag unset. -/
theorem C2_witness :
    (∃ e, buildSubtractFeeSet [0, 0] 2 = .error e) ∧
    (∃ l, ParseRecipients [("a", 10000)] ["zzz"] = .ok l ∧
      ∀ r ∈ l, r.fSubtractFeeFromAmount = (["zzz"] : List String).contains r.scriptPubKey) :=
  ⟨C2_amended_subtract_fee_referencing.1 [0, 0] 2 (Or.inr (by decide)),
   C2_amended_subtract_fee_referencing.2 [("a", 10000)] ["zzz"]
      (by decide) (by decide)⟩

/-- C6 counterexample: an address-keyed sendmany batch with an amount below
MIN_TXOUT_AMOUNT is not rejected with the amount-too-small error: it passes
recipient validation and the send proceeds, contradicting the claim. -/
theorem C6_counterexample :
    ((1 : Int) < MIN_TXOUT_AMOUNT) ∧
    (sendmany ⟨[], [], [], false, false, false, false, true, 0⟩ none
      [("a", 1)] none).1 = .ok "txid" := by
  constructor
  · decide
  · decide

/-- Helper for C6: every error of the ParseRecipients loop is an invalid
address, invalid parameter, or amount type error; no amount-too-small
rejection exists there. -/
theorem parseRecipientsLoop_error_code (subtract : List String)
    (entries : List (String × Int)) :
    ∀ (acc : List String) (e : RpcError),
      parseRecipientsLoop subtract entries acc = .error e →
      e.code = RPC_INVALID_ADDRESS_OR_KEY ∨ e.code = RPC_INVALID_PARAMETER ∨
        e.code = RPC_TYPE_ERROR := by
  induction entries with
  | nil =>
    intro acc e h
    simp [parseRecipientsLoop] at h
  | cons p rest ih =>
    intro acc e h
    obtain ⟨addr, v⟩ := p
    simp only [parseRecipientsLoop] at h
    rcases hd : DecodeDestination addr with _ | dest
    · rw [hd] at h
      simp at h
      subst h
      left
      rfl
    · rw [hd] at h
      by_cases hmem : dest ∈ acc
      · simp [hmem] at h
        subst h
        right
        left
        rfl
      · simp only [hmem, if_false, reduceIte] at h
        rcases hav : AmountFromValue v with e1 | amt
        · rw [hav] at h
          simp at h
          subst h
          unfold AmountFromValue at hav
          split at hav
          · rw [← (Except.error.inj hav)]
            right
            right
            rfl
          · exact Except.noConfusion hav
        · rw [hav] at h
          rcases hrec : parseRecipientsLoop subtract rest (dest :: acc) with e1 | l
          · rw [hrec] at h
            simp at h
            subst h
            exact ih (dest :: acc) e1 hrec
          · rw [hrec] at h
            simp at h

/-- C6 amended: only the single-recipient sendtoaddress handler rejects a
payment below MIN_TXOUT_AMOUNT (with the amount-too-small error, before any
other processing); recipient validation itself performs no minimum-amount
check, so address-keyed batches are never rejected with that error there. -/
theorem C6_amended_minimum_amount_scope :
    (∀ (w : Wallet) (address : String) (amount : Int) (sub : Option Bool)
       (ct : Option Int) (em : Option String) (ar : Option Bool) (fr : Option Int),
      amount < MIN_TXOUT_AMOUNT →
      sendtoaddress w address amount sub ct em ar fr =
        (.error ⟨RPC_INSUFFICIENT_SEND_AMOUNT, "Send amount too small"⟩, w)) ∧
    (∀ (entries : List (String × Int)) (subtract : List String) (e : RpcError),
      ParseRecipients entries subtract = .error e →
      e.code ≠ RPC_INSUFFICIENT_SEND_AMOUNT) := by
  constructor
  · intro w address amount sub ct em ar fr h
    simp [sendtoaddress, h]
  · intro entries subtract e h
    rcases parseRecipientsLoop_error_code subtract entries [] e h with hc | hc | hc <;>
      rw [hc] <;> decide

/-- Witness for C6 amended: a concrete sub-minimum sendtoaddress is rejected
with the amount-too-small error, and a concrete ParseRecipients failure
(invalid address) carries a different error code. -/
theorem C6_witness :
    sendtoaddress ⟨[], [], [], false, false, false, false, true, 0⟩ "a" 1
      none none none none none =
        (.error ⟨RPC_INSUFFICIENT_SEND_AMOUNT, "Send amount too small"⟩,
          ⟨[], [], [], false, false, false, false, true, 0⟩) ∧
    (⟨RPC_INVALID_ADDRESS_OR_KEY, "Invalid Bitcoin address: "⟩ : RpcError).code ≠
      RPC_INSUFFICIENT_SEND_AMOUNT :=
  ⟨C6_amended_minimum_amount_scope.1 ⟨[], [], [], false, false, false, false, true, 0⟩
      "a" 1 none none none none none (by decide),
   C6_amended_minimum_amount_scope.2 [("", 5)] []
      ⟨RPC_INVALID_ADDRESS_OR_KEY, "Invalid Bitcoin address: "⟩ (by decide)⟩

end PeercoinWallet
